import Mathlib

/-!
Shallow embedding of `easybuild/framework/easyconfig/types.py`:
the easyconfig type-checking and conversion engine.

Python runtime values are modelled by the inductive `Value`; Python type
descriptors (type objects and the hashable 2-tuple composite descriptors)
by `EType`.  Functions that can raise a Python exception return
`Except EBError _`.
-/

/-- Python runtime kind tags for the value kinds that occur in the engine. -/
inductive PrimT where
  | pstr
  | pbool
  | pint
  | pfloat
  | pnone
  | plist
  | ptuple
  | pdict
  deriving DecidableEq, Repr

/-- A Python runtime value, as flowing through the type checking engine.
Dicts are modelled as insertion-ordered association lists (Python 3 dicts
preserve insertion order); floats are modelled as rationals (their numeric
identity is irrelevant to the engine, only their runtime kind matters). -/
inductive Value where
  | vnone : Value
  | vbool : Bool → Value
  | vint : Int → Value
  | vfloat : Rat → Value
  | vstr : String → Value
  | vlist : List Value → Value
  | vtuple : List Value → Value
  | vdict : List (Value × Value) → Value

open Value

mutual

/-- Structural equality on Python values (models `==` for the value shapes
the engine handles; cross-kind numeric equality such as `1 == True` is not
exercised by the engine on key positions and is not modelled). -/
def beqV : Value → Value → Bool
  | .vnone, .vnone => true
  | .vbool a, .vbool b => a == b
  | .vint a, .vint b => a == b
  | .vfloat a, .vfloat b => a == b
  | .vstr a, .vstr b => a == b
  | .vlist a, .vlist b => beqVL a b
  | .vtuple a, .vtuple b => beqVL a b
  | .vdict a, .vdict b => beqVP a b
  | _, _ => false

/-- Structural equality on lists of Python values. -/
def beqVL : List Value → List Value → Bool
  | [], [] => true
  | a :: as, b :: bs => beqV a b && beqVL as bs
  | _, _ => false

/-- Structural equality on association lists of Python values. -/
def beqVP : List (Value × Value) → List (Value × Value) → Bool
  | [], [] => true
  | (k, v) :: ps, (k2, v2) :: qs => beqV k k2 && beqV v v2 && beqVP ps qs
  | _, _ => false

end

theorem beq_value_sound (n : Nat) :
    (∀ a : Value, sizeOf a < n → ∀ b, (beqV a b = true ↔ a = b)) ∧
    (∀ as : List Value, sizeOf as < n → ∀ bs, (beqVL as bs = true ↔ as = bs)) ∧
    (∀ ps : List (Value × Value), sizeOf ps < n → ∀ qs, (beqVP ps qs = true ↔ ps = qs)) := by
  induction n with
  | zero =>
    exact ⟨fun a ha => absurd ha (Nat.not_lt_zero _),
           fun as ha => absurd ha (Nat.not_lt_zero _),
           fun ps ha => absurd ha (Nat.not_lt_zero _)⟩
  | succ n ih =>
    obtain ⟨ihV, ihL, ihP⟩ := ih
    refine ⟨?_, ?_, ?_⟩
    · intro a ha b
      cases a <;> cases b <;> simp_all [beqV]
      case vlist.vlist as bs =>
        have hs : sizeOf as < n := by have h := ha; simp at h; omega
        exact ihL as hs bs
      case vtuple.vtuple as bs =>
        have hs : sizeOf as < n := by have h := ha; simp at h; omega
        exact ihL as hs bs
      case vdict.vdict ps qs =>
        have hs : sizeOf ps < n := by have h := ha; simp at h; omega
        exact ihP ps hs qs
    · intro as ha bs
      cases as with
      | nil => cases bs <;> simp [beqVL]
      | cons a as2 =>
        cases bs with
        | nil => simp [beqVL]
        | cons b bs2 =>
          have h1 : sizeOf a < n := by have h := ha; simp at h; omega
          have h2 : sizeOf as2 < n := by have h := ha; simp at h; omega
          simp [beqVL, ihV a h1 b, ihL as2 h2 bs2]
    · intro ps ha qs
      cases ps with
      | nil => cases qs <;> simp [beqVP]
      | cons p ps2 =>
        cases qs with
        | nil => obtain ⟨k, v⟩ := p; simp [beqVP]
        | cons q qs2 =>
          obtain ⟨k, v⟩ := p
          obtain ⟨k2, v2⟩ := q
          have h1 : sizeOf k < n := by have h := ha; simp at h; omega
          have h2 : sizeOf v < n := by have h := ha; simp at h; omega
          have h3 : sizeOf ps2 < n := by have h := ha; simp at h; omega
          simp [beqVP, ihV k h1 k2, ihV v h2 v2, ihP ps2 h3 qs2, and_assoc]

theorem beqV_iff_eq (a b : Value) : beqV a b = true ↔ a = b :=
  (beq_value_sound (sizeOf a + 1)).1 a (Nat.lt_succ_self _) b

instance : DecidableEq Value := fun a b => decidable_of_iff _ (beqV_iff_eq a b)

mutual

/-- Value of an `elem_types` requirement after `as_hashable`: either a flat
tuple of type descriptors, or the tuple-of-pairs representation of a dict
mapping key names to allowed descriptor lists.  In the Python source the
two are told apart by whether `dict(allowed_types)` succeeds; here the
shape is carried by the constructor. -/
inductive ETSpec where
  | flat : List EType → ETSpec
  | per_key : List (String × List EType) → ETSpec

/-- One entry of the canonicalized requirement tuple of a composite
descriptor (`as_hashable` output, sorted by requirement name). -/
inductive ReqEntry where
  | elem_types : ETSpec → ReqEntry
  | key_types : List EType → ReqEntry
  | opt_keys : List String → ReqEntry
  | req_keys : List String → ReqEntry

/-- A type descriptor: either a Python type object (primitive), or a
composite 2-tuple `(parent type, canonicalized requirements)`. -/
inductive EType where
  | prim : PrimT → EType
  | comb : PrimT → List ReqEntry → EType

end

open EType ReqEntry ETSpec

mutual

/-- Structural equality on type descriptors (models Python `==` between the
hashable descriptor tuples; used for `in EASY_TYPES` / `in CHECKABLE_TYPES`
membership and conversion-registry lookup). -/
def beqE : EType → EType → Bool
  | .prim a, .prim b => a == b
  | .comb p1 r1, .comb p2 r2 => p1 == p2 && beqRL r1 r2
  | _, _ => false
termination_by structural t => t

/-- Structural equality on requirement lists. -/
def beqRL : List ReqEntry → List ReqEntry → Bool
  | [], [] => true
  | r :: rs, s :: ss => beqR r s && beqRL rs ss
  | _, _ => false
termination_by structural l => l

/-- Structural equality on a single requirement entry. -/
def beqR : ReqEntry → ReqEntry → Bool
  | .elem_types a, .elem_types b => beqS a b
  | .key_types a, .key_types b => beqEL a b
  | .opt_keys a, .opt_keys b => a == b
  | .req_keys a, .req_keys b => a == b
  | _, _ => false
termination_by structural r => r

/-- Structural equality on `elem_types` requirement values. -/
def beqS : ETSpec → ETSpec → Bool
  | .flat a, .flat b => beqEL a b
  | .per_key a, .per_key b => beqKL a b
  | _, _ => false
termination_by structural s => s

/-- Structural equality on lists of type descriptors. -/
def beqEL : List EType → List EType → Bool
  | [], [] => true
  | t :: ts, u :: us => beqE t u && beqEL ts us
  | _, _ => false
termination_by structural l => l

/-- Structural equality on per-key descriptor maps. -/
def beqKL : List (String × List EType) → List (String × List EType) → Bool
  | [], [] => true
  | (k, ts) :: ps, (k2, us) :: qs => k == k2 && beqEL ts us && beqKL ps qs
  | _, _ => false
termination_by structural l => l

end

/-! ## Python runtime kinds, `isinstance`, truthiness -/

/-- The exact runtime kind (`type(v)`) of a value. -/
def kindOf : Value → PrimT
  | .vnone => .pnone
  | .vbool _ => .pbool
  | .vint _ => .pint
  | .vfloat _ => .pfloat
  | .vstr _ => .pstr
  | .vlist _ => .plist
  | .vtuple _ => .ptuple
  | .vdict _ => .pdict

/-- Python `isinstance(v, t)` for the kinds used by the engine.  The one
subclass relationship among them is that `bool` is a subclass of `int`, so
a boolean value is an instance of `int`. -/
def pyIsinstance (v : Value) (t : PrimT) : Bool :=
  kindOf v == t || (t == .pint && kindOf v == .pbool)

/-- Python truthiness (`bool(v)`) for the modelled value kinds. -/
def pyTruthy : Value → Bool
  | .vnone => false
  | .vbool b => b
  | .vint n => n != 0
  | .vfloat q => q != 0
  | .vstr s => s != ""
  | .vlist l => !l.isEmpty
  | .vtuple l => !l.isEmpty
  | .vdict d => !d.isEmpty

/-! ## The registered type descriptors (module-level constants) -/

/-- `TOOLCHAIN_DICT`: dict with required string-valued keys name/version and
optional bool-valued key hidden (requirements sorted by `as_hashable`). -/
def TOOLCHAIN_DICT : EType :=
  .comb .pdict [
    .elem_types (.per_key [
      ("hidden", [.prim .pbool]),
      ("name", [.prim .pstr]),
      ("version", [.prim .pstr])]),
    .opt_keys ["hidden"],
    .req_keys ["name", "version"]]

/-- `DEPENDENCY_DICT` descriptor. -/
def DEPENDENCY_DICT : EType :=
  .comb .pdict [
    .elem_types (.per_key [
      ("full_mod_name", [.prim .pstr]),
      ("name", [.prim .pstr]),
      ("short_mod_name", [.prim .pstr]),
      ("toolchain", [TOOLCHAIN_DICT]),
      ("version", [.prim .pstr]),
      ("versionsuffix", [.prim .pstr])]),
    .opt_keys ["full_mod_name", "short_mod_name", "toolchain", "versionsuffix"],
    .req_keys ["name", "version"]]

/-- `DEPENDENCIES`: list of dependency dicts. -/
def DEPENDENCIES : EType := .comb .plist [.elem_types (.flat [DEPENDENCY_DICT])]

/-- `TUPLE_OF_STRINGS` descriptor. -/
def TUPLE_OF_STRINGS : EType := .comb .ptuple [.elem_types (.flat [.prim .pstr])]

/-- `LIST_OF_STRINGS` descriptor. -/
def LIST_OF_STRINGS : EType := .comb .plist [.elem_types (.flat [.prim .pstr])]

/-- `STRING_OR_TUPLE_LIST` descriptor. -/
def STRING_OR_TUPLE_LIST : EType :=
  .comb .plist [.elem_types (.flat [.prim .pstr, TUPLE_OF_STRINGS])]

/-- `STRING_DICT` descriptor. -/
def STRING_DICT : EType :=
  .comb .pdict [.elem_types (.flat [.prim .pstr]), .key_types [.prim .pstr]]

/-- `STRING_OR_TUPLE_DICT` descriptor. -/
def STRING_OR_TUPLE_DICT : EType :=
  .comb .pdict [.elem_types (.flat [.prim .pstr]),
                .key_types [.prim .pstr, TUPLE_OF_STRINGS]]

/-- `STRING_OR_TUPLE_OR_DICT_LIST` descriptor. -/
def STRING_OR_TUPLE_OR_DICT_LIST : EType :=
  .comb .plist [.elem_types (.flat [.prim .pstr, TUPLE_OF_STRINGS, STRING_DICT])]

/-- `SANITY_CHECK_PATHS_ENTRY` descriptor. -/
def SANITY_CHECK_PATHS_ENTRY : EType :=
  .comb .plist [.elem_types (.flat [.prim .pstr, TUPLE_OF_STRINGS, STRING_OR_TUPLE_DICT])]

/-- `SANITY_CHECK_PATHS_DICT` descriptor; the key constants
`SANITY_CHECK_PATHS_FILES` and `SANITY_CHECK_PATHS_DIRS` are imported by the
source from the format module and are the strings "files" and "dirs"
(per-key map sorted by `as_hashable`, required-key order preserved). -/
def SANITY_CHECK_PATHS_DICT : EType :=
  .comb .pdict [
    .elem_types (.per_key [
      ("dirs", [SANITY_CHECK_PATHS_ENTRY]),
      ("files", [SANITY_CHECK_PATHS_ENTRY])]),
    .opt_keys [],
    .req_keys ["files", "dirs"]]

/-- `CHECKSUM_AND_TYPE` descriptor. -/
def CHECKSUM_AND_TYPE : EType :=
  .comb .ptuple [.elem_types (.flat [.prim .pstr, .prim .pint])]

/-- `CHECKSUM_LIST` descriptor. -/
def CHECKSUM_LIST : EType :=
  .comb .plist [.elem_types (.flat [.prim .pstr, CHECKSUM_AND_TYPE])]

/-- `CHECKSUM_TUPLE` descriptor. -/
def CHECKSUM_TUPLE : EType :=
  .comb .ptuple [.elem_types (.flat [.prim .pstr, CHECKSUM_AND_TYPE])]

/-- `CHECKSUM_DICT` descriptor. -/
def CHECKSUM_DICT : EType :=
  .comb .pdict [
    .elem_types (.flat [.prim .pnone, .prim .pstr, CHECKSUM_AND_TYPE,
                        CHECKSUM_TUPLE, CHECKSUM_LIST]),
    .key_types [.prim .pstr]]

/-- `CHECKSUM_LIST_W_DICT` descriptor. -/
def CHECKSUM_LIST_W_DICT : EType :=
  .comb .plist [.elem_types (.flat [.prim .pstr, CHECKSUM_AND_TYPE, CHECKSUM_DICT])]

/-- `CHECKSUM_TUPLE_W_DICT` descriptor. -/
def CHECKSUM_TUPLE_W_DICT : EType :=
  .comb .ptuple [.elem_types (.flat [.prim .pstr, CHECKSUM_AND_TYPE, CHECKSUM_DICT])]

/-- `CHECKSUMS` descriptor (the registered type of the checksums parameter). -/
def CHECKSUMS : EType :=
  .comb .plist [.elem_types (.flat [.prim .pnone, .prim .pstr, CHECKSUM_AND_TYPE,
                                    CHECKSUM_LIST_W_DICT, CHECKSUM_TUPLE_W_DICT,
                                    CHECKSUM_DICT])]

/-- `CHECKABLE_TYPES`: the composite descriptors the matcher knows how to
check, in source order. -/
def CHECKABLE_TYPES : List EType :=
  [CHECKSUM_AND_TYPE, CHECKSUM_LIST, CHECKSUM_TUPLE,
   CHECKSUM_LIST_W_DICT, CHECKSUM_TUPLE_W_DICT, CHECKSUM_DICT, CHECKSUMS,
   DEPENDENCIES, DEPENDENCY_DICT, LIST_OF_STRINGS,
   SANITY_CHECK_PATHS_DICT, SANITY_CHECK_PATHS_ENTRY, STRING_DICT,
   STRING_OR_TUPLE_LIST, STRING_OR_TUPLE_DICT, STRING_OR_TUPLE_OR_DICT_LIST,
   TOOLCHAIN_DICT, TUPLE_OF_STRINGS]

/-- `EASY_TYPES`: type objects checked with a plain `isinstance`; `str`
appears twice and `float` is absent, exactly as in the source. -/
def EASY_TYPES : List PrimT :=
  [.pstr, .pbool, .pdict, .pint, .plist, .pstr, .ptuple, .pnone]

/-- Membership of a type object in `EASY_TYPES` (Python `in`). -/
def inEasyTypes (t : PrimT) : Bool := EASY_TYPES.contains t

/-- Membership of a descriptor in `CHECKABLE_TYPES` (Python `in`, using
structural tuple equality). -/
def inCheckableTypes (t : EType) : Bool := CHECKABLE_TYPES.any (beqE t)

/-! ## Errors -/

/-- Exceptions the engine can raise.  `EasyBuildError`s are modelled by one
constructor per distinct message family; plain Python exceptions
(`KeyError`, `TypeError`, `ValueError`, `AttributeError`) that can escape
or be wrapped are modelled alongside. -/
inductive EBError where
  | unknownTypeSpec
  | unknownRequirement : String → EBError
  | keyError : String → EBError
  | typeError : EBError
  | attributeError : EBError
  | valueError : String → EBError
  | elemsTypeError : EBError
  | noConversionFunction : EBError
  | conversionFailed : EBError → EBError
  | conversionResultWrong : EBError
  | invalidTruthValue : String → EBError
  | toolchainListLength : EBError
  | toolchainDictKeys : EBError
  | toolchainUnsupported : EBError
  | externalModuleFormat : EBError
  | unexpectedKeyValuePair : EBError
  | depMissingNameVersion : EBError
  | listOfStringsExpected : EBError
  | expectedListError : EBError
  | badListElem : EBError
  | sanityBadKey : EBError
  | sanityBadDictValue : EBError
  | sanityBadElem : EBError
  | expectedDictError : EBError
  | checksumNone : Value → EBError
  | checksumBadValue : Value → EBError
  | invalidChecksums : EBError → EBError
  deriving DecidableEq

instance {ε α : Type _} [DecidableEq ε] [DecidableEq α] : DecidableEq (Except ε α) :=
  fun a b =>
    match a, b with
    | .ok x, .ok y => decidable_of_iff (x = y) (by simp)
    | .error e, .error f => decidable_of_iff (e = f) (by simp)
    | .ok _, .error _ => isFalse (fun h => Except.noConfusion h)
    | .error _, .ok _ => isFalse (fun h => Except.noConfusion h)

/-! ## Structural matcher -/

/-- Is a descriptor a composite 2-tuple?  (Such an element of a flat
`elem_types` tuple is itself a (key, value) pair, so `dict()` applied to
the tuple succeeds.) -/
def isComb : EType → Bool
  | .comb _ _ => true
  | .prim _ => false

/-- Lookup in the dict built from a tuple of (key, allowed types) pairs;
later duplicates overwrite earlier ones, as in Python `dict(...)`. -/
def lookupET (s : String) : List (String × List EType) → Option (List EType)
  | [] => none
  | (k, ts) :: rest =>
    match lookupET s rest with
    | some r => some r
    | none => if k == s then some ts else none

/-- Allowed descriptor list for a dict key under a per-key `elem_types`
requirement: a missing key gets the empty list (which no value satisfies);
a non-string key never equals any of the string keys of the map. -/
def allowedFor (k : Value) (m : List (String × List EType)) : List EType :=
  match k with
  | .vstr s => (lookupET s m).getD []
  | _ => []

theorem lookupET_sizeOf_le (s : String) (m : List (String × List EType)) :
    sizeOf ((lookupET s m).getD []) ≤ sizeOf m := by
  induction m with
  | nil => simp [lookupET]
  | cons p rest ih =>
    obtain ⟨k, ts⟩ := p
    simp only [lookupET]
    cases h : lookupET s rest with
    | some r =>
      simp only [h, Option.getD_some] at ih ⊢
      simp; omega
    | none =>
      by_cases hk : k == s
      · simp [hk]; omega
      · simp [hk, h]; cases rest <;> simp <;> omega

theorem list_sizeOf_pos {α : Type _} [SizeOf α] (l : List α) : 1 ≤ sizeOf l := by
  cases l with
  | nil => simp
  | cons a l2 =>
    have h0 : 0 ≤ sizeOf a := Nat.zero_le _
    simp; omega

theorem allowedFor_sizeOf_le (k : Value) (m : List (String × List EType)) :
    sizeOf (allowedFor k m) ≤ sizeOf m := by
  have hm : 1 ≤ sizeOf m := list_sizeOf_pos m
  cases k <;> simp [allowedFor] <;> try omega
  case vstr s =>
    have h := lookupET_sizeOf_le s m
    omega

/-- `check_known_keys`: all keys of a dict value are among the allowed key
names (a non-dict value fails the check). -/
def check_known_keys (val : Value) (allowed_keys : List String) : Bool :=
  match val with
  | .vdict pairs => pairs.all (fun kv =>
      match kv.1 with
      | .vstr s => allowed_keys.contains s
      | _ => false)
  | _ => false

/-- `check_required_keys`: all required key names are present as keys of the
dict value (a non-dict value fails the check). -/
def check_required_keys (val : Value) (required_keys : List String) : Bool :=
  match val with
  | .vdict pairs => required_keys.all (fun k => pairs.any (fun kv => kv.1 == Value.vstr k))
  | _ => false

/-- Lookup of the `req_keys` requirement inside a requirement tuple (used by
the `opt_keys` checker, which reads `extra_reqs['req_keys']`); a dict built
from the tuple keeps the last duplicate. -/
def find_req_keys (rs : List ReqEntry) : Option (List String) :=
  rs.foldl (fun acc r => match r with | .req_keys ks => some ks | _ => acc) none

mutual

/-- `is_value_of_type`: check whether a value matches a type descriptor.
Type objects in `EASY_TYPES` are checked with `isinstance`; descriptors in
`CHECKABLE_TYPES` first check the parent type and then evaluate every
requirement in the canonical (sorted) order, conjoining the results; any
other descriptor raises. -/
def is_value_of_type (value : Value) (expected_type : EType) : Except EBError Bool :=
  match expected_type with
  | .prim t =>
    if inEasyTypes t then pure (pyIsinstance value t)
    else .error .unknownTypeSpec
  | .comb parent_type extra_reqs =>
    if inCheckableTypes (.comb parent_type extra_reqs) then
      if pyIsinstance value parent_type then
        run_extra_reqs value parent_type extra_reqs extra_reqs true
      else
        pure false
    else .error .unknownTypeSpec
termination_by 3 * sizeOf expected_type + sizeOf value
decreasing_by all_goals (simp_wf; try omega)

/-- Evaluate the pending requirement entries in order, conjoining results
into the accumulator (`type_ok &= check_ok`); unknown requirement names for
the parent type raise. -/
def run_extra_reqs (value : Value) (parent_type : PrimT) (pending : List ReqEntry)
    (all_reqs : List ReqEntry) (acc : Bool) : Except EBError Bool :=
  match pending with
  | [] => pure acc
  | r :: rest => do
    let ok ← check_one_req value parent_type r all_reqs
    run_extra_reqs value parent_type rest all_reqs (acc && ok)
termination_by 3 * sizeOf pending + sizeOf value
decreasing_by all_goals (simp_wf; try omega)

/-- Evaluate one requirement entry.  The key-related checkers are only
registered when the parent type is `dict`; for other parents those
requirement names are unknown and raise.  The `opt_keys` checker reads
`extra_reqs['req_keys']`, raising a `KeyError` when it is absent. -/
def check_one_req (value : Value) (parent_type : PrimT) (r : ReqEntry)
    (all_reqs : List ReqEntry) : Except EBError Bool :=
  match r with
  | .elem_types spec => check_element_types value spec
  | .key_types ts =>
    if parent_type == .pdict then check_key_types value ts
    else .error (.unknownRequirement "key_types")
  | .opt_keys ks =>
    if parent_type == .pdict then
      match find_req_keys all_reqs with
      | some rks => pure (check_known_keys value (ks ++ rks))
      | none => .error (.keyError "req_keys")
    else .error (.unknownRequirement "opt_keys")
  | .req_keys ks =>
    if parent_type == .pdict then pure (check_required_keys value ks)
    else .error (.unknownRequirement "req_keys")
termination_by 3 * sizeOf r + sizeOf value
decreasing_by all_goals (simp_wf; try omega)

/-- `check_element_types`: check element types of an iterable value against
an `elem_types` requirement.  For a list/tuple value the requirement is
used as-is (a per-key tuple-of-pairs is also a tuple, whose pair elements
then raise when used as type specifications).  For a dict value the source
first tries `dict(allowed_types)`: a per-key map converts as intended; a
flat tuple converts only when every element is itself a 2-tuple composite
descriptor, in which case the resulting keys are type objects that never
equal the dict's keys, so every element gets an empty allowed list. -/
def check_element_types (elems : Value) (allowed_types : ETSpec) : Except EBError Bool :=
  match elems with
  | .vlist es =>
    (match allowed_types with
     | .flat ts => list_elems_flat es ts true
     | .per_key m =>
       match es, m with
       | [], _ => pure true
       | _ :: _, [] => pure false
       | _ :: _, _ :: _ => .error .unknownTypeSpec)
  | .vtuple es =>
    (match allowed_types with
     | .flat ts => list_elems_flat es ts true
     | .per_key m =>
       match es, m with
       | [], _ => pure true
       | _ :: _, [] => pure false
       | _ :: _, _ :: _ => .error .unknownTypeSpec)
  | .vdict pairs =>
    (match allowed_types with
     | .per_key m => dict_elems_per_key pairs m true
     | .flat ts =>
       if ts.all isComb then
         pure pairs.isEmpty
       else
         dict_elems_flat pairs ts true)
  | _ => .error .elemsTypeError
termination_by 3 * sizeOf allowed_types + sizeOf elems
decreasing_by all_goals (simp_wf; try omega)

/-- `check_key_types`: every key of a dict value must satisfy at least one
of the allowed descriptors (a non-dict value fails the check). -/
def check_key_types (val : Value) (allowed_types : List EType) : Except EBError Bool :=
  match val with
  | .vdict pairs => keys_all_allowed pairs allowed_types true
  | _ => pure false
termination_by 3 * sizeOf allowed_types + sizeOf val
decreasing_by all_goals (simp_wf; try omega)

/-- Fold of `res &= any(...)` over the keys of a dict value. -/
def keys_all_allowed (pairs : List (Value × Value)) (ts : List EType) (acc : Bool) :
    Except EBError Bool :=
  match pairs with
  | [] => pure acc
  | (k, _) :: rest => do
    let b ← anyType k ts
    keys_all_allowed rest ts (acc && b)
termination_by 3 * sizeOf ts + sizeOf pairs
decreasing_by all_goals (simp_wf; try omega)

/-- Fold of `res &= any(...)` over the elements of a list/tuple value. -/
def list_elems_flat (es : List Value) (ts : List EType) (acc : Bool) :
    Except EBError Bool :=
  match es with
  | [] => pure acc
  | e :: rest => do
    let b ← anyType e ts
    list_elems_flat rest ts (acc && b)
termination_by 3 * sizeOf ts + sizeOf es
decreasing_by all_goals (simp_wf; try omega)

/-- Fold of `res &= any(...)` over the values of a dict value against a flat
allowed list. -/
def dict_elems_flat (pairs : List (Value × Value)) (ts : List EType) (acc : Bool) :
    Except EBError Bool :=
  match pairs with
  | [] => pure acc
  | (_, v) :: rest => do
    let b ← anyType v ts
    dict_elems_flat rest ts (acc && b)
termination_by 3 * sizeOf ts + sizeOf pairs
decreasing_by all_goals (simp_wf; try omega)

/-- Fold of `res &= any(...)` over the items of a dict value against a
per-key map of allowed lists. -/
def dict_elems_per_key (pairs : List (Value × Value)) (m : List (String × List EType))
    (acc : Bool) : Except EBError Bool :=
  match pairs with
  | [] => pure acc
  | (k, v) :: rest => do
    let b ← anyType v (allowedFor k m)
    dict_elems_per_key rest m (acc && b)
termination_by 3 * sizeOf m + sizeOf pairs
decreasing_by all_goals (simp_wf; (try omega); (try (have h := allowedFor_sizeOf_le k m; omega)))

/-- Python `any(is_value_of_type(elem, t) for t in allowed)`: short-circuits
on the first matching descriptor; errors propagate. -/
def anyType (v : Value) (ts : List EType) : Except EBError Bool :=
  match ts with
  | [] => pure false
  | t :: rest => do
    if (← is_value_of_type v t) then pure true else anyType v rest

termination_by 3 * sizeOf ts + sizeOf v
decreasing_by all_goals (simp_wf; try omega)
end

/-! ## Small Except helpers -/

/-- Unfolding lemma for `pure` on `Except`. -/
theorem pure_except {α : Type} (a : α) : (pure a : Except EBError α) = .ok a := rfl

/-- Unfolding lemma for `bind` on `Except` (ok case). -/
theorem bind_except_ok {α β : Type} (a : α) (f : α → Except EBError β) :
    (Except.ok a : Except EBError α) >>= f = f a := rfl

/-- Unfolding lemma for `bind` on `Except` (error case). -/
theorem bind_except_error {α β : Type} (e : EBError) (f : α → Except EBError β) :
    (Except.error e : Except EBError α) >>= f = .error e := rfl

/-! ## Python value rendering (`str`, `repr`) -/

/-- Comma-space join, as in Python container reprs. -/
def joinComma (l : List String) : String := String.intercalate ", " l

mutual

/-- Python `repr` of a value.  The renderings of floats and of strings with
special characters are approximations (no value the engine inspects depends
on them); containers render recursively as in Python. -/
def py_repr : Value → String
  | .vnone => "None"
  | .vbool b => if b then "True" else "False"
  | .vint n => toString n
  | .vfloat q => toString q
  | .vstr s => "'" ++ s ++ "'"
  | .vlist l => "[" ++ joinComma (py_repr_list l) ++ "]"
  | .vtuple [x] => "(" ++ py_repr x ++ ",)"
  | .vtuple l => "(" ++ joinComma (py_repr_list l) ++ ")"
  | .vdict d => "\x7b" ++ joinComma (py_repr_items d) ++ "\x7d"
termination_by v => sizeOf v
decreasing_by all_goals (simp_wf; try omega)

/-- Reprs of list elements. -/
def py_repr_list : List Value → List String
  | [] => []
  | x :: xs => py_repr x :: py_repr_list xs
termination_by l => sizeOf l
decreasing_by all_goals (simp_wf; try omega)

/-- Reprs of dict items. -/
def py_repr_items : List (Value × Value) → List String
  | [] => []
  | (k, v) :: xs => (py_repr k ++ ": " ++ py_repr v) :: py_repr_items xs
termination_by ps => sizeOf ps
decreasing_by all_goals (simp_wf; try omega)

end

/-- Python `str` of a value: the string itself for strings, `repr`
otherwise. -/
def py_str : Value → String
  | .vstr s => s
  | v => py_repr v

/-! ## Kernel-reducible string helpers (Python `strip`/`lower`/`split`/int parsing) -/

/-- Python whitespace for `str.strip()`. -/
def pyIsSpace (c : Char) : Bool :=
  c = ' ' || c = '\t' || c = '\n' || c = '\r' || c = '\x0b' || c = '\x0c'

/-- Python `str.strip()`: drop leading and trailing whitespace. -/
def pyStrip (s : String) : String :=
  String.mk (((s.data.dropWhile pyIsSpace).reverse.dropWhile pyIsSpace).reverse)

/-- ASCII lowercasing of one character (the tokens the engine lowercases
are ASCII). -/
def pyLowerChar (c : Char) : Char :=
  if 'A' ≤ c && c ≤ 'Z' then Char.ofNat (c.toNat + 32) else c

/-- Python `str.lower()` (ASCII approximation). -/
def pyLower (s : String) : String := String.mk (s.data.map pyLowerChar)

/-- Helper for splitting on commas, accumulating the current chunk in
reverse. -/
def splitCommaAux : List Char → List Char → List String
  | [], acc => [String.mk acc.reverse]
  | c :: cs, acc =>
    if c = ',' then String.mk acc.reverse :: splitCommaAux cs []
    else splitCommaAux cs (c :: acc)

/-- Python `s.split(',')`: split on every comma; the empty string yields a
single empty chunk. -/
def pySplitComma (s : String) : List String := splitCommaAux s.data []

/-- Digits of a decimal literal. -/
def parseDigitsAux : List Char → Nat → Option Nat
  | [], acc => some acc
  | c :: cs, acc =>
    if c.isDigit then parseDigitsAux cs (acc * 10 + (c.toNat - 48))
    else none

/-- Parse a nonempty decimal digit string. -/
def parseDigits : List Char → Option Nat
  | [] => none
  | l => parseDigitsAux l 0

/-- Python `int(string)`: strip whitespace, optional sign, decimal digits
(other integer literal syntaxes are not exercised and not modelled). -/
def pyParseInt (s : String) : Option Int :=
  match (pyStrip s).data with
  | '-' :: rest => (parseDigits rest).map (fun n => -(n : Int))
  | '+' :: rest => (parseDigits rest).map (fun n => (n : Int))
  | l => (parseDigits l).map (fun n => (n : Int))

/-! ## Toolchain normalizer -/

/-- Is a value a string? -/
def isVStr : Value → Bool
  | .vstr _ => true
  | _ => false

/-- Is a value an int (exact kind, not bool)? -/
def isVInt : Value → Bool
  | .vint _ => true
  | _ => false

/-- Calling `.strip()` on a sequence element: an `AttributeError` escapes
when the element is not a string. -/
def strip_str : Value → Except EBError String
  | .vstr s => pure (pyStrip s)
  | _ => .error .attributeError

/-- Code-point comparison of character lists (Python string `<=`). -/
def charListLe : List Char → List Char → Bool
  | [], _ => true
  | _ :: _, [] => false
  | c :: cs, d :: ds =>
    if c.toNat < d.toNat then true
    else if d.toNat < c.toNat then false
    else charListLe cs ds

/-- Python string comparison (by code points). -/
def strLe (a b : String) : Bool := charListLe a.data b.data

/-- Ascending insertion into a sorted list of strings. -/
def insertSorted (s : String) : List String → List String
  | [] => [s]
  | t :: ts => if strLe s t then s :: t :: ts else t :: insertSorted s ts

/-- Ascending sort of strings (models Python `sorted` on string keys). -/
def sortStrings (l : List String) : List String := l.foldr insertSorted []

/-- The string payload of a value, when it is one. -/
def getVStr : Value → Option String
  | .vstr s => some s
  | _ => none

/-- The int payload of a value, when it is one. -/
def getVInt : Value → Option Int
  | .vint n => some n
  | _ => none

/-- Ascending insertion into a sorted list of ints. -/
def insertSortedInt (n : Int) : List Int → List Int
  | [] => [n]
  | m :: ms => if n ≤ m then n :: m :: ms else m :: insertSortedInt n ms

/-- Python `sorted(d.keys())`.  All-string and all-int key lists sort; a
single key needs no comparison; other combinations raise `TypeError`
(mixed-type and other homogeneous sortable key sets do not occur in the
engine's dict inputs and are conservatively modelled as the raising case). -/
def pySortedKeys (pairs : List (Value × Value)) : Except EBError (List Value) :=
  let ks := pairs.map Prod.fst
  if ks.all isVStr then
    pure ((sortStrings (ks.filterMap getVStr)).map Value.vstr)
  else if ks.all isVInt then
    pure (((ks.filterMap getVInt).foldr insertSortedInt []).map Value.vint)
  else if ks.length ≤ 1 then
    pure ks
  else
    .error .typeError

/-- The fixed truthy token vocabulary of the toolchain normalizer. -/
def TRUTHY_TOKENS : List String := ["yes", "true", "t", "y", "1", "on"]

/-- The fixed falsy token vocabulary of the toolchain normalizer. -/
def FALSY_TOKENS : List String := ["no", "false", "f", "n", "0", "off"]

/-- Conversion of a 2/3-element sequence to a toolchain dict (the list
branch of `to_toolchain_dict`); for a 3-element form the hidden token is
stripped, lowercased and classified first, as in the source. -/
def toolchain_from_seq (elems : List Value) : Except EBError Value :=
  match elems with
  | [a, b] => do
    let n ← strip_str a
    let v ← strip_str b
    pure (.vdict [(.vstr "name", .vstr n), (.vstr "version", .vstr v)])
  | [a, b, c] => do
    let h0 ← strip_str c
    let htok := pyLower h0
    let hb ←
      if TRUTHY_TOKENS.contains htok then pure true
      else if FALSY_TOKENS.contains htok then pure false
      else .error (.invalidTruthValue htok)
    let n ← strip_str a
    let v ← strip_str b
    pure (.vdict [(.vstr "name", .vstr n), (.vstr "version", .vstr v),
                  (.vstr "hidden", .vbool hb)])
  | _ => .error .toolchainListLength

/-- `to_toolchain_dict`: convert a comma-separated string or 2/3-element
sequence of strings to a name/version(/hidden) dict; a dict passes through
unchanged when its sorted key list is exactly name/version or
hidden/name/version. -/
def to_toolchain_dict (spec : Value) : Except EBError Value :=
  let spec2 : Value :=
    match spec with
    | .vstr s => .vlist ((pySplitComma s).map Value.vstr)
    | v => v
  match spec2 with
  | .vlist elems => toolchain_from_seq elems
  | .vtuple elems => toolchain_from_seq elems
  | .vdict pairs => do
    let skeys ← pySortedKeys pairs
    if skeys = [Value.vstr "name", Value.vstr "version"] ∨
       skeys = [Value.vstr "hidden", Value.vstr "name", Value.vstr "version"] then
      pure (.vdict pairs)
    else
      .error .toolchainDictKeys
  | _ => .error .toolchainUnsupported

/-! ## Generic list normalizers -/

/-- `to_list_of_strings`. -/
def to_list_of_strings (value : Value) : Except EBError Value :=
  match value with
  | .vlist l => if l.all isVStr then pure (.vlist l) else .error .listOfStringsExpected
  | .vstr s => pure (.vlist [.vstr s])
  | .vtuple l => if l.all isVStr then pure (.vlist l) else .error .listOfStringsExpected
  | _ => .error .listOfStringsExpected

/-- `to_list_of_strings_and_tuples`: list elements that are lists become
tuples; strings and tuples pass through; anything else raises. -/
def to_list_of_strings_and_tuples (spec : Value) : Except EBError Value :=
  match spec with
  | .vlist elems => Value.vlist <$> elems.mapM str_tup_elem
  | .vtuple elems => Value.vlist <$> elems.mapM str_tup_elem
  | _ => .error .expectedListError
where
  /-- Convert one element. -/
  str_tup_elem : Value → Except EBError Value
    | .vstr s => pure (.vstr s)
    | .vtuple l => pure (.vtuple l)
    | .vlist l => pure (.vtuple l)
    | _ => .error .badListElem

/-- `to_list_of_strings_and_tuples_and_dicts`: as above but dicts also pass
through. -/
def to_list_of_strings_and_tuples_and_dicts (spec : Value) : Except EBError Value :=
  match spec with
  | .vlist elems => Value.vlist <$> elems.mapM str_tup_dict_elem
  | .vtuple elems => Value.vlist <$> elems.mapM str_tup_dict_elem
  | _ => .error .expectedListError
where
  /-- Convert one element. -/
  str_tup_dict_elem : Value → Except EBError Value
    | .vstr s => pure (.vstr s)
    | .vtuple l => pure (.vtuple l)
    | .vdict d => pure (.vdict d)
    | .vlist l => pure (.vtuple l)
    | _ => .error .badListElem

/-! ## Sanity-check-path normalizers

`to_sanity_check_paths_entry` converts list values inside dict elements to
tuples by assigning `elem[key] = tuple(value)` on the caller's dict object,
so the embedding returns a pair `(result, state)` where `state` is the
caller's value after the call (the result list shares the updated dict
objects). -/

/-- Process one element of a sanity-check-paths entry, returning the value
appended to the result and the element's state after the call (identical
except for dicts, which are updated in place). -/
def sanity_entry_elem (elem : Value) : Except EBError (Value × Value) :=
  match elem with
  | .vstr s => pure (.vstr s, .vstr s)
  | .vtuple l => pure (.vtuple l, .vtuple l)
  | .vlist l => pure (.vtuple l, .vlist l)
  | .vdict pairs => do
    let newPairs ← pairs.mapM (fun kv =>
      match kv with
      | (.vstr k, .vlist l) => pure ((Value.vstr k, Value.vtuple l) : Value × Value)
      | (.vstr k, .vstr s) => pure ((Value.vstr k, Value.vstr s) : Value × Value)
      | (.vstr k, .vtuple l) => pure ((Value.vstr k, Value.vtuple l) : Value × Value)
      | (.vstr _, _) => .error .sanityBadDictValue
      | _ => .error .sanityBadKey)
    pure (.vdict newPairs, .vdict newPairs)
  | _ => .error .sanityBadElem

/-- `to_sanity_check_paths_entry`: result list and the caller's (possibly
updated) value. -/
def to_sanity_check_paths_entry (spec : Value) : Except EBError (Value × Value) :=
  match spec with
  | .vlist elems => do
    let rs ← elems.mapM sanity_entry_elem
    pure (.vlist (rs.map Prod.fst), .vlist (rs.map Prod.snd))
  | .vtuple elems => do
    let rs ← elems.mapM sanity_entry_elem
    pure (.vlist (rs.map Prod.fst), .vtuple (rs.map Prod.snd))
  | _ => .error .expectedListError

/-- `to_sanity_check_paths_dict`: apply the entry conversion to every value
of the dict; returns the fresh result dict and the caller's dict after the
call (its values' nested dicts may have been updated in place). -/
def to_sanity_check_paths_dict (spec : Value) : Except EBError (Value × Value) :=
  match spec with
  | .vdict pairs => do
    let rs ← pairs.mapM (fun kv => do
      let r ← to_sanity_check_paths_entry kv.2
      pure ((kv.1, r.1), (kv.1, r.2)))
    pure (.vdict (rs.map Prod.fst), .vdict (rs.map Prod.snd))
  | _ => .error .expectedDictError

/-- The result component of `to_sanity_check_paths_dict` (the value the
conversion registry returns to the dispatcher). -/
def to_sanity_check_paths_dict_fn (spec : Value) : Except EBError Value :=
  Prod.fst <$> to_sanity_check_paths_dict spec

/-! ## Dependency normalizer -/

/-- First-match dict lookup (Python dicts have unique keys). -/
def lookupVal (pairs : List (Value × Value)) (k : Value) : Option Value :=
  (pairs.find? (fun kv => kv.1 == k)).map Prod.snd

/-- Membership of a key in a dict. -/
def hasKey (pairs : List (Value × Value)) (k : Value) : Bool :=
  pairs.any (fun kv => kv.1 == k)

/-- `dict.__setitem__` / `dict.update` on the association-list model: an
existing key keeps its position and gets the new value; a new key is
appended. -/
def dictSet (pairs : List (Value × Value)) (k v : Value) : List (Value × Value) :=
  if pairs.any (fun kv => kv.1 == k) then
    pairs.map (fun kv => if kv.1 == k then (k, v) else kv)
  else
    pairs ++ [(k, v)]

/-- The loop over the remaining keys of a regular dependency dict:
`versionsuffix` is coerced to a string, `toolchain` is delegated to the
toolchain normalizer, one remaining pair may become an implicit
name/version pair while those are not both set, and any further key is a
hard error. -/
def dep_regular_loop (dep : List (Value × Value)) (depspec : List (Value × Value)) :
    List Value → Except EBError (List (Value × Value))
  | [] => pure depspec
  | k :: rest =>
    if k == Value.vstr "versionsuffix" then
      match lookupVal dep k with
      | some v => dep_regular_loop dep (dictSet depspec k (.vstr (py_str v))) rest
      | none => .error (.keyError "versionsuffix")
    else if k == Value.vstr "toolchain" then
      match lookupVal dep k with
      | some v => do
        let tc ← to_toolchain_dict v
        dep_regular_loop dep (dictSet depspec (.vstr "toolchain") tc) rest
      | none => .error (.keyError "toolchain")
    else if !(hasKey depspec (.vstr "name") && hasKey depspec (.vstr "version")) then
      match lookupVal dep k with
      | some v =>
        dep_regular_loop dep
          (dictSet (dictSet depspec (.vstr "name") k) (.vstr "version") (.vstr (py_str v)))
          rest
      | none => .error (.keyError "unknown")
    else
      .error .unexpectedKeyValuePair

/-- `to_dependency`: convert a dependency dict to the canonical dependency
dict; the external-module form requires exactly the keys
external_module/name; non-dict values pass down untouched. -/
def to_dependency (dep : Value) : Except EBError Value :=
  match dep with
  | .vdict pairs =>
    if pyTruthy ((lookupVal pairs (.vstr "external_module")).getD (.vbool false)) then do
      let skeys ← pySortedKeys pairs
      if skeys = [Value.vstr "external_module", Value.vstr "name"] then
        match lookupVal pairs (.vstr "name") with
        | some nm =>
          pure (.vdict [(.vstr "external_module", .vbool true),
                        (.vstr "full_mod_name", nm),
                        (.vstr "name", .vnone),
                        (.vstr "short_mod_name", nm),
                        (.vstr "version", .vnone)])
        | none => .error (.keyError "name")
      else
        .error .externalModuleFormat
    else do
      -- name/version are consumed first, removing them from the key list
      let step := fun (st : List (Value × Value) × List Value) (key : String) =>
        if hasKey pairs (.vstr key) then
          match lookupVal pairs (.vstr key) with
          | some v => (dictSet st.1 (.vstr key) (.vstr (py_str v)),
                       st.2.erase (Value.vstr key))
          | none => st
        else st
      let st0 := (([] : List (Value × Value)), pairs.map Prod.fst)
      let st1 := step (step st0 "name") "version"
      let depspec ← dep_regular_loop pairs st1.1 st1.2
      if hasKey depspec (.vstr "name") && hasKey depspec (.vstr "version") then
        pure (.vdict depspec)
      else
        .error .depMissingNameVersion
  | v => pure v

/-- `to_dependencies`: map the dependency conversion over the entries of
the parsed list (iterating a tuple also works; iterating a string yields
its characters, a dict its keys; anything else raises `TypeError`). -/
def to_dependencies (dep_list : Value) : Except EBError Value :=
  match dep_list with
  | .vlist l => Value.vlist <$> l.mapM to_dependency
  | .vtuple l => Value.vlist <$> l.mapM to_dependency
  | .vstr s => Value.vlist <$> (s.data.map (fun c => Value.vstr (String.singleton c))).mapM to_dependency
  | .vdict d => Value.vlist <$> (d.map Prod.fst).mapM to_dependency
  | _ => .error .typeError

/-! ## Checksum normalizer -/

mutual

/-- `_to_checksum`: normalize one checksum entry.  A 2-element sequence
whose first element is a string and whose second is a string or int (a
bool is an int instance) becomes a tuple exactly when the second element
is not a string or the nesting level is positive; other sequences are
alternative/multiple checksums up to nesting level 2 (with `None`
forbidden below the top level, and tuples or positive levels forcing
tuple results with no further nesting allowed); dicts are allowed only
where `allow_dict` holds; everything else raises `ValueError`. -/
def _to_checksum (checksum : Value) (list_level : Nat) (allow_dict : Bool) :
    Except EBError Value :=
  match checksum with
  | .vnone => pure .vnone
  | .vstr s => pure (.vstr s)
  | .vlist elems => _to_checksum_seq (.vlist elems) elems false list_level allow_dict
  | .vtuple elems => _to_checksum_seq (.vtuple elems) elems true list_level allow_dict
  | .vdict pairs =>
    if allow_dict then Value.vdict <$> _to_checksum_items pairs
    else .error (.checksumBadValue (.vdict pairs))
  | v => .error (.checksumBadValue v)
termination_by 4 * sizeOf checksum
decreasing_by all_goals (simp_wf; try omega)

/-- The list/tuple case of `_to_checksum` (`orig` is the original sequence
value, used in error messages and returned unchanged for an unconverted
2-string list at the top level). -/
def _to_checksum_seq (orig : Value) (elems : List Value) (is_tuple : Bool)
    (list_level : Nat) (allow_dict : Bool) : Except EBError Value :=
  match helems : elems with
  | [c0, c1] =>
    if pyIsinstance c0 .pstr && (pyIsinstance c1 .pstr || pyIsinstance c1 .pint) then
      if !(pyIsinstance c1 .pstr) || list_level > 0 then
        pure (.vtuple [c0, c1])
      else
        pure orig
    else
      _to_checksum_seq_rest orig [c0, c1] is_tuple list_level allow_dict
  | _ => _to_checksum_seq_rest orig elems is_tuple list_level allow_dict
termination_by 4 * sizeOf elems + 3
decreasing_by all_goals (simp_wf; (try subst helems); try omega)

/-- The alternatives/multiple-checksums fallthrough for a sequence that is
not a convertible 2-element pair. -/
def _to_checksum_seq_rest (orig : Value) (elems : List Value) (is_tuple : Bool)
    (list_level : Nat) (allow_dict : Bool) : Except EBError Value :=
  if list_level < 2 then
    if elems.any (fun x => x == Value.vnone) then
      .error (.checksumNone orig)
    else if is_tuple || list_level > 0 then
      Value.vtuple <$> _to_checksum_each elems 99 allow_dict
    else
      Value.vlist <$> _to_checksum_each elems (list_level + 1) allow_dict
  else
    .error (.checksumBadValue orig)
termination_by 4 * sizeOf elems + 2
decreasing_by all_goals (simp_wf; try omega)

/-- Elementwise recursion of `_to_checksum` over a sequence. -/
def _to_checksum_each (elems : List Value) (list_level : Nat) (allow_dict : Bool) :
    Except EBError (List Value) :=
  match elems with
  | [] => pure []
  | x :: xs => do
    let r ← _to_checksum x list_level allow_dict
    let rs ← _to_checksum_each xs list_level allow_dict
    pure (r :: rs)
termination_by 4 * sizeOf elems + 1
decreasing_by all_goals (simp_wf; try omega)

/-- Itemwise recursion of `_to_checksum` over a dict (values recurse with
`allow_dict` disabled and the default nesting level 0). -/
def _to_checksum_items (pairs : List (Value × Value)) :
    Except EBError (List (Value × Value)) :=
  match pairs with
  | [] => pure []
  | (k, v) :: xs => do
    let r ← _to_checksum v 0 false
    let rs ← _to_checksum_items xs
    pure ((k, r) :: rs)
termination_by 4 * sizeOf pairs + 1
decreasing_by all_goals (simp_wf; try omega)

end

/-- `to_checksums`: normalize each entry of the checksums list, wrapping
any `ValueError` from `_to_checksum` into a single `EasyBuildError` naming
the whole list (iterating a tuple also works; a string yields its
characters, a dict its keys; anything else raises `TypeError`). -/
def to_checksums (checksums : Value) : Except EBError Value :=
  let run := fun (l : List Value) =>
    match l.mapM (fun c => _to_checksum c 0 true) with
    | .ok rs => .ok (Value.vlist rs)
    | .error e => .error (.invalidChecksums e)
  match checksums with
  | .vlist l => run l
  | .vtuple l => run l
  | .vstr s => run (s.data.map (fun c => Value.vstr (String.singleton c)))
  | .vdict d => run (d.map Prod.fst)
  | _ => .error .typeError

/-! ## Conversion dispatcher -/

/-- `EASY_TYPES` membership combined with `isinstance` (the first guard of
`convert_value_type`; only a primitive type object can be in
`EASY_TYPES`). -/
def easyInstance (val : Value) (typ : EType) : Bool :=
  match typ with
  | .prim t => inEasyTypes t && pyIsinstance val t
  | .comb _ _ => false

/-- `isinstance(res, typ)` as used by the post-conversion check of
`convert_value_type`.  For a composite descriptor `typ` is the 2-tuple
`(parent, requirements)`: `isinstance` short-circuits to true when the
value is an instance of the parent type, and otherwise recurses into the
requirements tuple, whose string entries raise `TypeError`. -/
def pyIsinstanceDescriptor (res : Value) (typ : EType) : Except EBError Bool :=
  match typ with
  | .prim t => pure (pyIsinstance res t)
  | .comb parent _ =>
    if pyIsinstance res parent then pure true else .error .typeError

/-- `TYPE_CONVERSION_FUNCTIONS`: the conversion registry (a dict keyed by
descriptor; `str` appears twice in the source literal, mapping to the same
builtin).  The primitive coercions `str`/`float`/`int` are the Python
builtins. -/
def TYPE_CONVERSION_FUNCTIONS (typ : EType) : Option (Value → Except EBError Value) :=
  if beqE typ (.prim .pstr) then some (fun v => pure (.vstr (py_str v)))
  else if beqE typ (.prim .pfloat) then some py_float_fn
  else if beqE typ (.prim .pint) then some py_int_fn
  else if beqE typ CHECKSUMS then some to_checksums
  else if beqE typ DEPENDENCIES then some to_dependencies
  else if beqE typ LIST_OF_STRINGS then some to_list_of_strings
  else if beqE typ TOOLCHAIN_DICT then some to_toolchain_dict
  else if beqE typ SANITY_CHECK_PATHS_DICT then some to_sanity_check_paths_dict_fn
  else if beqE typ STRING_OR_TUPLE_LIST then some to_list_of_strings_and_tuples
  else if beqE typ STRING_OR_TUPLE_OR_DICT_LIST then some to_list_of_strings_and_tuples_and_dicts
  else none
where
  /-- Python `int(v)`: ints pass, bools map to 0/1, floats truncate toward
  zero, strings parse after stripping whitespace (number formats beyond an
  optional sign and digits are not modelled); other kinds raise. -/
  py_int_fn : Value → Except EBError Value
    | .vint n => pure (.vint n)
    | .vbool b => pure (.vint (if b then 1 else 0))
    | .vfloat q => pure (.vint (if q ≥ 0 then q.floor else -((-q).floor)))
    | .vstr s =>
      (match pyParseInt s with
       | some n => pure (.vint n)
       | none => .error (.valueError "invalid literal for int"))
    | _ => .error .typeError
  /-- Python `float(v)`: floats pass, ints and bools widen, strings parse
  (only integral literals are modelled); other kinds raise. -/
  py_float_fn : Value → Except EBError Value
    | .vfloat q => pure (.vfloat q)
    | .vint n => pure (.vfloat n)
    | .vbool b => pure (.vfloat (if b then 1 else 0))
    | .vstr s =>
      (match pyParseInt s with
       | some n => pure (.vfloat n)
       | none => .error (.valueError "could not convert string to float"))
    | _ => .error .typeError

/-- `convert_value_type`: return the value unchanged when it already is of
the target type; otherwise run the registered conversion function, wrapping
its exception in an `EasyBuildError`; a successful result is re-checked
only with `isinstance` against the target, and a failing re-check raises
the distinct did-not-work-as-expected error. -/
def convert_value_type (val : Value) (typ : EType) : Except EBError Value :=
  if easyInstance val typ then
    pure val
  else do
    let already ← (if inCheckableTypes typ then is_value_of_type val typ else pure false)
    if already then
      pure val
    else
      match TYPE_CONVERSION_FUNCTIONS typ with
      | some func =>
        (match func val with
         | .ok res => do
           let inst ← pyIsinstanceDescriptor res typ
           if inst then pure res else .error .conversionResultWrong
         | .error err => .error (.conversionFailed err))
      | none => .error .noConversionFunction

/-- Modelled from the spec: `DEPENDENCY_PARAMETERS` is imported from the
format module, which is not under the embedded source; the spec says the
parameter registry maps every dependency-list parameter name to the
`DEPENDENCIES` descriptor, so the standard dependency parameter names are
used here. -/
def DEPENDENCY_PARAMETERS : List String :=
  ["builddependencies", "dependencies", "hiddendependencies"]

/-- `PARAMETER_TYPES`: the parameter registry (type checking is skipped for
parameter names not listed). -/
def PARAMETER_TYPES (key : String) : Option EType :=
  match key with
  | "checksums" => some CHECKSUMS
  | "docurls" => some LIST_OF_STRINGS
  | "name" => some (.prim .pstr)
  | "osdependencies" => some STRING_OR_TUPLE_LIST
  | "patches" => some STRING_OR_TUPLE_OR_DICT_LIST
  | "sanity_check_paths" => some SANITY_CHECK_PATHS_DICT
  | "toolchain" => some TOOLCHAIN_DICT
  | "version" => some (.prim .pstr)
  | k => if DEPENDENCY_PARAMETERS.contains k then some DEPENDENCIES else none

/-- `check_type_of_param_value`: skip unregistered parameters; return the
value on a passing check; optionally auto-convert on a failing check; and
report `(False, None)` when conversion is not enabled. -/
def check_type_of_param_value (key : String) (val : Value) (auto_convert : Bool) :
    Except EBError (Bool × Value) :=
  match PARAMETER_TYPES key with
  | none => pure (true, val)
  | some expected => do
    let ok ← is_value_of_type val expected
    if ok then
      pure (true, val)
    else if auto_convert then do
      let newval ← convert_value_type val expected
      pure (true, newval)
    else
      pure (false, .vnone)

/-! ## Behavior lemmas for the matcher folds -/

/-- When every descriptor in the list checks without raising, `anyType`
computes the boolean "some descriptor matches". -/
theorem anyType_eq_of_isOk (x : Value) :
    ∀ ts : List EType, (∀ T ∈ ts, (is_value_of_type x T).isOk) →
    anyType x ts = .ok (ts.any (fun T => is_value_of_type x T == Except.ok true)) := by
  intro ts
  induction ts with
  | nil => intro _; simp [anyType, pure_except]
  | cons T rest ih =>
    intro h
    have hT : (is_value_of_type x T).isOk := h T (List.mem_cons_self T rest)
    cases hv : is_value_of_type x T with
    | error e => rw [hv] at hT; simp [Except.isOk, Except.toBool] at hT
    | ok b =>
      have hrest := ih (fun U hU => h U (List.mem_cons_of_mem T hU))
      cases b with
      | true => simp [anyType, hv, pure_except, bind_except_ok]
      | false => simp [anyType, hv, hrest, pure_except, bind_except_ok]

/-- When every element's `any` check is error-free, the `res &= any(...)`
fold over a list value computes the conjunction. -/
theorem list_elems_flat_eq (ts : List EType) :
    ∀ (L : List Value) (acc : Bool), (∀ x ∈ L, (anyType x ts).isOk) →
    list_elems_flat L ts acc =
      .ok (acc && L.all (fun x => anyType x ts == Except.ok true)) := by
  intro L
  induction L with
  | nil => intro acc _; simp [list_elems_flat, pure_except]
  | cons x rest ih =>
    intro acc h
    have hx : (anyType x ts).isOk := h x (List.mem_cons_self x rest)
    cases hv : anyType x ts with
    | error e => rw [hv] at hx; simp [Except.isOk, Except.toBool] at hx
    | ok b =>
      have hrest := ih (acc && b) (fun y hy => h y (List.mem_cons_of_mem x hy))
      simp only [list_elems_flat, hv, bind_except_ok, hrest, List.all_cons]
      cases b <;> simp [hv]

/-- When every item's `any` check is error-free, the `res &= any(...)` fold
over a dict value with a per-key requirement computes the conjunction. -/
theorem dict_elems_per_key_eq (m : List (String × List EType)) :
    ∀ (pairs : List (Value × Value)) (acc : Bool),
    (∀ kv ∈ pairs, (anyType kv.2 (allowedFor kv.1 m)).isOk) →
    dict_elems_per_key pairs m acc =
      .ok (acc && pairs.all (fun kv => anyType kv.2 (allowedFor kv.1 m) == Except.ok true)) := by
  intro pairs
  induction pairs with
  | nil => intro acc _; simp [dict_elems_per_key, pure_except]
  | cons kv rest ih =>
    intro acc h
    obtain ⟨k, v⟩ := kv
    have hx : (anyType v (allowedFor k m)).isOk := h (k, v) (List.mem_cons_self _ rest)
    cases hv : anyType v (allowedFor k m) with
    | error e => rw [hv] at hx; simp [Except.isOk, Except.toBool] at hx
    | ok b =>
      have hrest := ih (acc && b) (fun y hy => h y (List.mem_cons_of_mem _ hy))
      simp only [dict_elems_per_key, hv, bind_except_ok, hrest, List.all_cons]
      cases b <;> simp [hv]

/-! ## Claim theorems -/

/-- Evaluation of the matcher at a registered primitive descriptor. -/
theorem iv_prim (v : Value) (t : PrimT) (h : inEasyTypes t = true) :
    is_value_of_type v (.prim t) = .ok (pyIsinstance v t) := by
  simp [is_value_of_type, h, pure_except]

/-- C1 (counterexample): the boolean value `True` matches the integer
descriptor (`isinstance(True, int)` holds in the host language) although
its runtime kind is `bool`, not `int`; so the primitive matcher is not
exact runtime-kind identity. -/
theorem C1_counterexample :
    is_value_of_type (.vbool true) (.prim .pint) = .ok true ∧
    kindOf (.vbool true) ≠ PrimT.pint := by
  constructor
  · simp [is_value_of_type, inEasyTypes, EASY_TYPES, pyIsinstance, kindOf, pure_except]
  · decide

/-- C1 (amended): for every primitive descriptor among string, boolean,
integer, null, list, tuple and dict, `is_value_of_type` returns true iff
the value's runtime kind is exactly that primitive or the descriptor is
integer and the value is a boolean; the float descriptor is not registered
in `EASY_TYPES` and raises the unknown-type error instead of returning. -/
theorem C1_primitive_matching :
    (∀ (v : Value) (t : PrimT), t ≠ .pfloat →
       is_value_of_type v (.prim t) =
         .ok (kindOf v == t || (t == .pint && kindOf v == .pbool))) ∧
    (∀ v : Value, is_value_of_type v (.prim .pfloat) = .error .unknownTypeSpec) := by
  constructor
  · intro v t ht
    have hmem : inEasyTypes t = true := by cases t <;> simp_all [inEasyTypes, EASY_TYPES]
    simp [is_value_of_type, hmem, pyIsinstance, pure_except]
  · intro v
    simp [is_value_of_type, inEasyTypes, EASY_TYPES]

/-- C1 (witness): the amended characterization applied to `True` against
the integer descriptor. -/
theorem C1_witness :
    is_value_of_type (.vbool true) (.prim .pint) = .ok true := by
  have h := C1_primitive_matching.1 (.vbool true) .pint (by decide)
  simpa [kindOf] using h

/-- Membership of the toolchain descriptor in `CHECKABLE_TYPES` (stated on
the canonical term so it can rewrite unfolded goals). -/
theorem inCheckable_toolchain :
    inCheckableTypes (EType.comb .pdict [
      .elem_types (.per_key [
        ("hidden", [.prim .pbool]), ("name", [.prim .pstr]), ("version", [.prim .pstr])]),
      .opt_keys ["hidden"],
      .req_keys ["name", "version"]]) = true := by decide

/-- C7: against the toolchain descriptor (required keys name/version,
optional key hidden), a dict with exactly name/version (string values)
matches; one missing version does not; one with an extra key foo does not;
and one with name/version/hidden (hidden a boolean) matches. -/
theorem C7_toolchain_keys :
    is_value_of_type (.vdict [(.vstr "name", .vstr "GCC"), (.vstr "version", .vstr "9.3.0")])
      TOOLCHAIN_DICT = .ok true ∧
    is_value_of_type (.vdict [(.vstr "name", .vstr "GCC")]) TOOLCHAIN_DICT = .ok false ∧
    is_value_of_type (.vdict [(.vstr "name", .vstr "GCC"), (.vstr "version", .vstr "9.3.0"),
      (.vstr "foo", .vstr "x")]) TOOLCHAIN_DICT = .ok false ∧
    is_value_of_type (.vdict [(.vstr "name", .vstr "GCC"), (.vstr "version", .vstr "9.3.0"),
      (.vstr "hidden", .vbool true)]) TOOLCHAIN_DICT = .ok true := by
  refine ⟨?_, ?_, ?_, ?_⟩ <;>
    simp [TOOLCHAIN_DICT, is_value_of_type, inCheckable_toolchain, run_extra_reqs,
          check_one_req, check_element_types, check_key_types, keys_all_allowed,
          list_elems_flat, dict_elems_flat, dict_elems_per_key, anyType, allowedFor,
          lookupET, check_known_keys, check_required_keys, find_req_keys, isComb,
          inEasyTypes, EASY_TYPES, pyIsinstance, kindOf, pure_except, bind_except_ok]

/-- C10: under a per-key `elem_types` requirement, a dict item whose key
has no entry in the map is checked against the empty list of allowed
descriptors, which no value satisfies, so the element-types check of a dict
containing such a key returns false (provided the other items' checks are
error-free, as they are for the registered descriptors). -/
theorem C10_unlisted_key_fails :
    ∀ (pairs : List (Value × Value)) (m : List (String × List EType)) (k v : Value),
    (k, v) ∈ pairs →
    allowedFor k m = [] →
    (∀ kv ∈ pairs, (anyType kv.2 (allowedFor kv.1 m)).isOk) →
    check_element_types (.vdict pairs) (.per_key m) = .ok false := by
  intro pairs m k v hmem hnone hok
  have hfold := dict_elems_per_key_eq m pairs true hok
  have hbad : anyType v (allowedFor k m) = .ok false := by
    rw [hnone]; simp [anyType, pure_except]
  have hall : pairs.all (fun kv => anyType kv.2 (allowedFor kv.1 m) == Except.ok true) = false := by
    rw [List.all_eq_false]
    exact ⟨(k, v), hmem, by simp [hbad]⟩
  simp [check_element_types, hfold, hall]

/-- C10 (witness): the element-types check applied to a dict with the
unlisted key foo under a per-key map that only knows name. -/
theorem C10_witness :
    check_element_types (.vdict [(.vstr "name", .vstr "x"), (.vstr "foo", .vstr "y")])
      (.per_key [("name", [.prim .pstr])]) = .ok false := by
  apply C10_unlisted_key_fails _ _ (Value.vstr "foo") (.vstr "y")
  · decide
  · rfl
  · intro kv hkv
    have h1 := iv_prim kv.2 .pstr (by decide)
    fin_cases hkv <;>
      simp_all [anyType, allowedFor, lookupET, pyIsinstance, kindOf, bind_except_ok,
                pure_except, Except.isOk, Except.toBool]

/-- C4 (counterexample): the 2-element list `["abc", None]` has a string
first element and a non-string second element, so the claimed rule would
convert it to a typed pair; the code instead falls through to the
alternatives branch and rejects the nested `None` with a `ValueError`. -/
theorem C4_counterexample :
    _to_checksum (.vlist [.vstr "abc", .vnone]) 0 true =
      .error (.checksumNone (.vlist [.vstr "abc", .vnone])) ∧
    _to_checksum (.vlist [.vstr "abc", .vnone]) 0 true ≠ .ok (.vtuple [.vstr "abc", .vnone]) := by
  have h : _to_checksum (.vlist [.vstr "abc", .vnone]) 0 true =
      .error (.checksumNone (.vlist [.vstr "abc", .vnone])) := by
    simp [_to_checksum, _to_checksum_seq, _to_checksum_seq_rest, pyIsinstance, kindOf]
  exact ⟨h, by rw [h]; exact fun hc => Except.noConfusion hc⟩

/-- C4 (amended): among 2-element sequences whose first element is a string
and whose second element is a string or an int — the guarded class of the
2-element disambiguation rule — a list is converted to an immutable typed
tuple iff the second element is not a string or the nesting level is
positive, and a tuple yields the same tuple either way; 2-element
sequences outside that class fall through to the alternatives treatment. -/
theorem C4_two_element_rule :
    ∀ (c0 c1 : Value) (lvl : Nat) (ad : Bool),
    pyIsinstance c0 .pstr = true →
    (pyIsinstance c1 .pstr || pyIsinstance c1 .pint) = true →
    ((_to_checksum (.vlist [c0, c1]) lvl ad = .ok (.vtuple [c0, c1])) ↔
       (pyIsinstance c1 .pstr = false ∨ 0 < lvl)) ∧
    _to_checksum (.vtuple [c0, c1]) lvl ad = .ok (.vtuple [c0, c1]) := by
  intro c0 c1 lvl ad h0 h1
  by_cases hs : pyIsinstance c1 .pstr = true
  · by_cases hl : 0 < lvl
    · constructor
      · simp [_to_checksum, _to_checksum_seq, h0, h1, hs, hl, pure_except]
      · simp [_to_checksum, _to_checksum_seq, h0, h1, hs, hl, pure_except]
    · have hnc : _to_checksum (.vlist [c0, c1]) lvl ad = .ok (.vlist [c0, c1]) := by
        simp [_to_checksum, _to_checksum_seq, h0, h1, hs, hl, pure_except]
      constructor
      · constructor
        · intro hc
          rw [hnc] at hc
          simp at hc
        · intro hor
          rcases hor with h2 | h2
          · rw [hs] at h2; cases h2
          · exact absurd h2 hl
      · simp [_to_checksum, _to_checksum_seq, h0, h1, hs, hl, pure_except]
  · have hs2 : pyIsinstance c1 .pstr = false := by
      cases hv : pyIsinstance c1 .pstr
      · rfl
      · exact absurd hv hs
    have hint : pyIsinstance c1 .pint = true := by
      rw [hs2] at h1; simpa using h1
    constructor
    · simp [_to_checksum, _to_checksum_seq, h0, h1, hs2, hint, pure_except]
    · simp [_to_checksum, _to_checksum_seq, h0, h1, hs2, hint, pure_except]

/-- C4 (witness): a 2-string list at the top level stays a list (it is not
the typed pair), while the same 2-string list nested one level deep and a
2-string tuple are the typed tuple. -/
theorem C4_witness :
    _to_checksum (.vlist [.vstr "sha256", .vstr "abcd"]) 0 true ≠
      .ok (.vtuple [.vstr "sha256", .vstr "abcd"]) ∧
    _to_checksum (.vlist [.vstr "sha256", .vstr "abcd"]) 1 true =
      .ok (.vtuple [.vstr "sha256", .vstr "abcd"]) ∧
    _to_checksum (.vtuple [.vstr "sha256", .vstr "abcd"]) 0 true =
      .ok (.vtuple [.vstr "sha256", .vstr "abcd"]) := by
  have h0 := C4_two_element_rule (.vstr "sha256") (.vstr "abcd") 0 true (by decide) (by decide)
  have h1 := C4_two_element_rule (.vstr "sha256") (.vstr "abcd") 1 true (by decide) (by decide)
  refine ⟨?_, ?_, h0.2⟩
  · intro hc
    have := h0.1.mp hc
    rcases this with h2 | h2
    · simp [pyIsinstance, kindOf] at h2
    · exact absurd h2 (by omega)
  · exact h1.1.mpr (Or.inr (by omega))

/-- C5: a value that already matches its registered descriptor passes the
parameter check unchanged (also with auto-conversion enabled) and is
returned unchanged by `convert_value_type`, with no error. -/
theorem C5_identity_on_matching :
    ∀ (key : String) (val : Value) (T : EType) (ac : Bool),
    PARAMETER_TYPES key = some T →
    is_value_of_type val T = .ok true →
    check_type_of_param_value key val ac = .ok (true, val) ∧
    convert_value_type val T = .ok val := by
  intro key val T ac hk hv
  have hcheck : check_type_of_param_value key val ac = .ok (true, val) := by
    simp [check_type_of_param_value, hk, hv, bind_except_ok, pure_except]
  refine ⟨hcheck, ?_⟩
  cases T with
  | prim t =>
    cases hmem : inEasyTypes t with
    | true =>
      have hinst : pyIsinstance val t = true := by
        rw [iv_prim val t hmem] at hv
        exact Except.ok.inj hv
      simp [convert_value_type, easyInstance, hmem, hinst, pure_except]
    | false =>
      rw [is_value_of_type] at hv
      simp [hmem] at hv
  | comb p reqs =>
    cases hmem : inCheckableTypes (.comb p reqs) with
    | true =>
      simp [convert_value_type, easyInstance, hmem, hv, bind_except_ok, pure_except]
    | false =>
      rw [is_value_of_type] at hv
      simp [hmem] at hv

/-- C5 (witness): the name parameter (a registered string-typed parameter)
with an already-string value, with auto-conversion enabled. -/
theorem C5_witness :
    check_type_of_param_value "name" (.vstr "foo") true = .ok (true, .vstr "foo") ∧
    convert_value_type (.vstr "foo") (.prim .pstr) = .ok (.vstr "foo") :=
  C5_identity_on_matching "name" (.vstr "foo") (.prim .pstr) true rfl
    (by simp [iv_prim, inEasyTypes, EASY_TYPES, pyIsinstance, kindOf])

/-- C6: for a checkable composite list or tuple descriptor whose
`elem_types` is the two-descriptor set [A, B], the matcher accepts a value
of the parent kind iff every element matches A or matches B (the empty
sequence matches vacuously); element checks are assumed error-free, as
they are for every registered descriptor. -/
theorem C6_list_element_law :
    ∀ (p : PrimT) (A B : EType) (L : List Value) (v : Value),
    ((p = .plist ∧ v = .vlist L) ∨ (p = .ptuple ∧ v = .vtuple L)) →
    inCheckableTypes (.comb p [.elem_types (.flat [A, B])]) = true →
    (∀ x ∈ L, (is_value_of_type x A).isOk ∧ (is_value_of_type x B).isOk) →
    (is_value_of_type v (.comb p [.elem_types (.flat [A, B])]) = .ok true ↔
      ∀ x ∈ L, is_value_of_type x A = .ok true ∨ is_value_of_type x B = .ok true) := by
  intro p A B L v hpv hmem hok
  have hae : ∀ x ∈ L, anyType x [A, B] =
      .ok ((is_value_of_type x A == Except.ok true) || (is_value_of_type x B == Except.ok true)) := by
    intro x hx
    have h := anyType_eq_of_isOk x [A, B] (by
      intro T hT
      rcases List.mem_cons.mp hT with h1 | h1
      · subst h1; exact (hok x hx).1
      · rcases List.mem_cons.mp h1 with h2 | h2
        · subst h2; exact (hok x hx).2
        · cases h2)
    simpa using h
  have hfold := list_elems_flat_eq [A, B] L true (by
    intro x hx; rw [hae x hx]; rfl)
  have hcore : is_value_of_type v (.comb p [.elem_types (.flat [A, B])]) =
      .ok (L.all (fun x => anyType x [A, B] == Except.ok true)) := by
    rcases hpv with ⟨hp, hv2⟩ | ⟨hp, hv2⟩ <;> subst hp <;> subst hv2 <;>
      simp [is_value_of_type, hmem, pyIsinstance, kindOf, run_extra_reqs, check_one_req,
            check_element_types, hfold, bind_except_ok, pure_except]
  rw [hcore]
  constructor
  · intro h x hx
    have hall : L.all (fun x => anyType x [A, B] == Except.ok true) = true := Except.ok.inj h
    have hx2 := List.all_eq_true.mp hall x hx
    rw [hae x hx] at hx2
    simp at hx2
    rcases hx2 with h2 | h2
    · exact Or.inl h2
    · exact Or.inr h2
  · intro h
    have hall : L.all (fun x => anyType x [A, B] == Except.ok true) = true := by
      rw [List.all_eq_true]
      intro x hx
      rw [hae x hx]
      rcases h x hx with h2 | h2 <;> simp [h2]
    rw [hall]

/-- Membership of the tuple-of-strings descriptor in `CHECKABLE_TYPES`
(stated on the canonical term). -/
theorem inCheckable_tuple_of_strings :
    inCheckableTypes (EType.comb .ptuple [.elem_types (.flat [.prim .pstr])]) = true := by decide

/-- C6 (witness): the string-or-tuple list descriptor applied to a list
holding one string and one tuple of strings. -/
theorem C6_witness :
    is_value_of_type (.vlist [.vstr "x", .vtuple [.vstr "y"]])
      (.comb .plist [.elem_types (.flat [.prim .pstr, TUPLE_OF_STRINGS])]) = .ok true := by
  have e1 : is_value_of_type (Value.vstr "x") (.prim .pstr) = .ok true := by
    simp [iv_prim, inEasyTypes, EASY_TYPES, pyIsinstance, kindOf]
  have e2 : is_value_of_type (Value.vtuple [.vstr "y"]) (.prim .pstr) = .ok false := by
    simp [iv_prim, inEasyTypes, EASY_TYPES, pyIsinstance, kindOf]
  have e3 : is_value_of_type (Value.vtuple [.vstr "y"]) TUPLE_OF_STRINGS = .ok true := by
    simp [TUPLE_OF_STRINGS, is_value_of_type, inCheckable_tuple_of_strings, run_extra_reqs,
          check_one_req, check_element_types, list_elems_flat, anyType, inEasyTypes,
          EASY_TYPES, pyIsinstance, kindOf, pure_except, bind_except_ok]
  have e4 : is_value_of_type (Value.vstr "x") TUPLE_OF_STRINGS = .ok false := by
    simp [TUPLE_OF_STRINGS, is_value_of_type, inCheckable_tuple_of_strings, run_extra_reqs,
          check_one_req, check_element_types, list_elems_flat, anyType, inEasyTypes,
          EASY_TYPES, pyIsinstance, kindOf, pure_except, bind_except_ok]
  have h := C6_list_element_law .plist (.prim .pstr) TUPLE_OF_STRINGS
      [.vstr "x", .vtuple [.vstr "y"]] (.vlist [.vstr "x", .vtuple [.vstr "y"]])
      (Or.inl ⟨rfl, rfl⟩) (by decide) (by
        intro x hx
        fin_cases hx <;> simp [e1, e2, e3, e4, Except.isOk, Except.toBool])
  apply h.mpr
  intro x hx
  fin_cases hx
  · exact Or.inl e1
  · exact Or.inr e3

/-- A toolchain-shaped dict whose values have the wrong type: the right
keys, but integer values. -/
def badToolchainValues : Value :=
  .vdict [(.vstr "name", .vint 1), (.vstr "version", .vint 2)]

/-- The bad-values toolchain dict fails the structural matcher. -/
theorem iv_bad_toolchain :
    is_value_of_type badToolchainValues TOOLCHAIN_DICT = .ok false := by
  simp [badToolchainValues, TOOLCHAIN_DICT, is_value_of_type, inCheckable_toolchain,
        run_extra_reqs, check_one_req, check_element_types, check_key_types,
        keys_all_allowed, list_elems_flat, dict_elems_flat, dict_elems_per_key, anyType,
        allowedFor, lookupET, check_known_keys, check_required_keys, find_req_keys, isComb,
        inEasyTypes, EASY_TYPES, pyIsinstance, kindOf, pure_except, bind_except_ok]

/-- C2 (counterexample): the toolchain normalizer returns the bad-values
dict unchanged; `convert_value_type` then returns it without raising, even
though it still fails the structural matcher — the post-conversion check is
not the Matcher. -/
theorem C2_counterexample :
    to_toolchain_dict badToolchainValues = .ok badToolchainValues ∧
    convert_value_type badToolchainValues TOOLCHAIN_DICT = .ok badToolchainValues ∧
    is_value_of_type badToolchainValues TOOLCHAIN_DICT = .ok false := by
  have h1 : to_toolchain_dict badToolchainValues = .ok badToolchainValues := by decide
  have h2 : easyInstance badToolchainValues TOOLCHAIN_DICT = false := by decide
  have h3 : (if inCheckableTypes TOOLCHAIN_DICT then
      is_value_of_type badToolchainValues TOOLCHAIN_DICT else pure false) = Except.ok false := by
    rw [show inCheckableTypes TOOLCHAIN_DICT = true from by decide]
    simp [iv_bad_toolchain]
  have h4 : TYPE_CONVERSION_FUNCTIONS TOOLCHAIN_DICT = some to_toolchain_dict := rfl
  have h5 : pyIsinstanceDescriptor badToolchainValues TOOLCHAIN_DICT = .ok true := by decide
  refine ⟨h1, ?_, iv_bad_toolchain⟩
  have h3b : (if inCheckableTypes TOOLCHAIN_DICT = true then
      is_value_of_type badToolchainValues TOOLCHAIN_DICT else Except.ok false) =
      Except.ok false := h3
  simp [convert_value_type, h1, h2, h3b, h4, h5, bind_except_ok, pure_except]

/-- C2 (amended): when conversion runs and the registered normalizer
returns a result, `convert_value_type` re-validates only with `isinstance`
against the target — for a composite descriptor just the top-level parent
kind, not the full structural matcher; a result of the right kind is
returned even if it fails the Matcher; a primitive-kind mismatch raises
the did-not-work-as-expected error, which is distinct from the wrapped
normalizer-failure error, and a composite parent-kind mismatch raises an
uncaught `TypeError`. -/
theorem C2_revalidation_isinstance_only :
    (∀ (val : Value) (typ : EType) (func : Value → Except EBError Value) (res : Value),
      TYPE_CONVERSION_FUNCTIONS typ = some func →
      easyInstance val typ = false →
      (if inCheckableTypes typ then is_value_of_type val typ else pure false) = Except.ok false →
      func val = .ok res →
      convert_value_type val typ =
        (match typ with
         | .prim t => if pyIsinstance res t then .ok res else .error .conversionResultWrong
         | .comb parent _ => if pyIsinstance res parent then .ok res else .error .typeError)) ∧
    (∀ e : EBError, EBError.conversionResultWrong ≠ .conversionFailed e) := by
  constructor
  · intro val typ func res h1 h2 h3 h4
    simp only [convert_value_type, h2, Bool.false_eq_true, if_false, h3, bind_except_ok,
               h1, h4]
    cases typ with
    | prim t =>
      cases hpi : pyIsinstance res t <;>
        simp [pyIsinstanceDescriptor, hpi, bind_except_ok, bind_except_error, pure_except]
    | comb parent reqs =>
      cases hpi : pyIsinstance res parent <;>
        simp [pyIsinstanceDescriptor, hpi, bind_except_ok, bind_except_error, pure_except]
  · exact fun e h => EBError.noConfusion h

/-- C2 (witness): the amended rule applied to the bad-values toolchain
dict, whose conversion result is a dict (right parent kind) and is
returned unflagged. -/
theorem C2_witness :
    convert_value_type badToolchainValues TOOLCHAIN_DICT = .ok badToolchainValues := by
  have h := C2_revalidation_isinstance_only.1 badToolchainValues TOOLCHAIN_DICT
      to_toolchain_dict badToolchainValues rfl (by decide)
      (by rw [show inCheckableTypes TOOLCHAIN_DICT = true from by decide]
          simp [iv_bad_toolchain])
      (by decide)
  simpa [TOOLCHAIN_DICT, pyIsinstance, kindOf, badToolchainValues] using h

/-- A non-dict entry element's state after `to_sanity_check_paths_entry` is
the element itself. -/
theorem sanity_entry_elem_state :
    ∀ (e x st : Value), kindOf e ≠ .pdict → sanity_entry_elem e = .ok (x, st) → st = e := by
  intro e x st hk h
  cases e <;> simp_all [sanity_entry_elem, kindOf, pure_except] <;>
    try (exact h.2.symm.trans h.1)

/-- Over a dict-free element list, the state components returned by the
entry conversion are the original elements. -/
theorem sanity_mapM_state :
    ∀ (elems : List Value) (rs : List (Value × Value)),
    (∀ e ∈ elems, kindOf e ≠ .pdict) →
    elems.mapM sanity_entry_elem = .ok rs →
    rs.map Prod.snd = elems := by
  intro elems
  induction elems with
  | nil =>
    intro rs _ h
    simp only [List.mapM_nil, pure_except] at h
    rw [← Except.ok.inj h]
    rfl
  | cons e es ih =>
    intro rs hnd h
    rw [List.mapM_cons] at h
    cases h1 : sanity_entry_elem e with
    | error err => rw [h1] at h; simp [bind_except_error] at h
    | ok p =>
      obtain ⟨x, st⟩ := p
      cases h2 : es.mapM sanity_entry_elem with
      | error err => rw [h1, h2] at h; simp [bind_except_ok, bind_except_error] at h
      | ok rs2 =>
        rw [h1, h2] at h
        simp only [bind_except_ok, pure_except] at h
        have hst := sanity_entry_elem_state e x st (hnd e (List.mem_cons_self e es)) h1
        have hrec := ih rs2 (fun y hy => hnd y (List.mem_cons_of_mem _ hy)) h2
        rw [← Except.ok.inj h]
        simp [hst, hrec]

/-- C3 (counterexample): converting a sanity-check-paths entry that holds a
dict with a list value updates the caller's dict in place: the state
component after the call differs from the value passed in. -/
theorem C3_counterexample :
    to_sanity_check_paths_entry (.vlist [.vstr "foo", .vdict [(.vstr "k", .vlist [.vstr "a", .vstr "b"])]]) =
      .ok (.vlist [.vstr "foo", .vdict [(.vstr "k", .vtuple [.vstr "a", .vstr "b"])]],
           .vlist [.vstr "foo", .vdict [(.vstr "k", .vtuple [.vstr "a", .vstr "b"])]]) ∧
    (Value.vlist [.vstr "foo", .vdict [(.vstr "k", .vtuple [.vstr "a", .vstr "b"])]]) ≠
      .vlist [.vstr "foo", .vdict [(.vstr "k", .vlist [.vstr "a", .vstr "b"])]] := by
  constructor
  · decide
  · decide

/-- C3 (amended): conversion leaves the caller's value unchanged except in
the sanity-check-path conversions, which replace list values inside dict
elements by tuples in place; in particular, for an entry list with no dict
elements the caller's value after the call is exactly the value passed
in. -/
theorem C3_no_mutation_without_dicts :
    ∀ (elems : List Value) (r st : Value),
    (∀ e ∈ elems, kindOf e ≠ .pdict) →
    to_sanity_check_paths_entry (.vlist elems) = .ok (r, st) →
    st = .vlist elems := by
  intro elems r st hnd h
  cases hm : elems.mapM sanity_entry_elem with
  | error err =>
    rw [to_sanity_check_paths_entry] at h
    rw [hm] at h
    simp [bind_except_error] at h
  | ok rs =>
    rw [to_sanity_check_paths_entry] at h
    rw [hm] at h
    simp only [bind_except_ok, pure_except] at h
    have hrec := sanity_mapM_state elems rs hnd hm
    have := (Prod.mk.injEq _ _ _ _).mp (Except.ok.inj h)
    rw [← this.2, hrec]

/-- C3 (witness): a dict-free entry list is returned with its state equal
to the caller's value. -/
theorem C3_witness :
    to_sanity_check_paths_entry (.vlist [.vstr "foo", .vtuple [.vstr "a"], .vlist [.vstr "b"]]) =
      .ok (.vlist [.vstr "foo", .vtuple [.vstr "a"], .vtuple [.vstr "b"]],
           .vlist [.vstr "foo", .vtuple [.vstr "a"], .vlist [.vstr "b"]]) ∧
    (Value.vlist [.vstr "foo", .vtuple [.vstr "a"], .vlist [.vstr "b"]]) =
      .vlist [.vstr "foo", .vtuple [.vstr "a"], .vlist [.vstr "b"]] := by
  have heval : to_sanity_check_paths_entry
      (.vlist [.vstr "foo", .vtuple [.vstr "a"], .vlist [.vstr "b"]]) =
      .ok (.vlist [.vstr "foo", .vtuple [.vstr "a"], .vtuple [.vstr "b"]],
           .vlist [.vstr "foo", .vtuple [.vstr "a"], .vlist [.vstr "b"]]) := by decide
  exact ⟨heval, C3_no_mutation_without_dicts _ _ _ (by decide) heval⟩

/-- C8: the toolchain normalizer maps a comma-separated string and a
2-element sequence of strings to a stripped name/version dict; a 3-element
sequence's third element is stripped, lowercased and classified against
exactly the fixed truthy and falsy token sets, any other token raising the
invalid-truth-value error; and a dict input is returned unchanged iff its
sorted key list is exactly name/version or hidden/name/version, raising
the user-input shape error otherwise. -/
theorem C8_toolchain_normalizer :
    (∀ s n v : String, pySplitComma s = [n, v] →
      to_toolchain_dict (.vstr s) =
        .ok (.vdict [(.vstr "name", .vstr (pyStrip n)), (.vstr "version", .vstr (pyStrip v))])) ∧
    (∀ n v : String,
       to_toolchain_dict (.vlist [.vstr n, .vstr v]) =
        .ok (.vdict [(.vstr "name", .vstr (pyStrip n)), (.vstr "version", .vstr (pyStrip v))])) ∧
    (∀ n v h : String,
      (pyLower (pyStrip h) ∈ TRUTHY_TOKENS →
        to_toolchain_dict (.vlist [.vstr n, .vstr v, .vstr h]) =
          .ok (.vdict [(.vstr "name", .vstr (pyStrip n)), (.vstr "version", .vstr (pyStrip v)),
                       (.vstr "hidden", .vbool true)])) ∧
      (pyLower (pyStrip h) ∉ TRUTHY_TOKENS →
       pyLower (pyStrip h) ∈ FALSY_TOKENS →
        to_toolchain_dict (.vlist [.vstr n, .vstr v, .vstr h]) =
          .ok (.vdict [(.vstr "name", .vstr (pyStrip n)), (.vstr "version", .vstr (pyStrip v)),
                       (.vstr "hidden", .vbool false)])) ∧
      (pyLower (pyStrip h) ∉ TRUTHY_TOKENS →
       pyLower (pyStrip h) ∉ FALSY_TOKENS →
        to_toolchain_dict (.vlist [.vstr n, .vstr v, .vstr h]) =
          .error (.invalidTruthValue (pyLower (pyStrip h))))) ∧
    (∀ (pairs : List (Value × Value)) (ks : List Value), pySortedKeys pairs = .ok ks →
      ((ks = [Value.vstr "name", Value.vstr "version"] ∨
        ks = [Value.vstr "hidden", Value.vstr "name", Value.vstr "version"]) →
        to_toolchain_dict (.vdict pairs) = .ok (.vdict pairs)) ∧
      (ks ≠ [Value.vstr "name", Value.vstr "version"] →
       ks ≠ [Value.vstr "hidden", Value.vstr "name", Value.vstr "version"] →
        to_toolchain_dict (.vdict pairs) = .error .toolchainDictKeys)) := by
  refine ⟨?_, ?_, ?_, ?_⟩
  · intro s n v hs
    simp [to_toolchain_dict, hs, toolchain_from_seq, strip_str, bind_except_ok, pure_except]
  · intro n v
    simp [to_toolchain_dict, toolchain_from_seq, strip_str, bind_except_ok, pure_except]
  · intro n v h
    refine ⟨?_, ?_, ?_⟩
    · intro ht
      simp [to_toolchain_dict, toolchain_from_seq, strip_str, ht, bind_except_ok, pure_except]
    · intro ht hf
      simp [to_toolchain_dict, toolchain_from_seq, strip_str, ht, hf, bind_except_ok, pure_except]
    · intro ht hf
      simp [to_toolchain_dict, toolchain_from_seq, strip_str, ht, hf, bind_except_ok,
            bind_except_error, pure_except]
  · intro pairs ks hk
    constructor
    · intro hor
      simp [to_toolchain_dict, hk, hor, bind_except_ok, pure_except]
    · intro h1 h2
      simp [to_toolchain_dict, hk, h1, h2, bind_except_ok, pure_except]

/-- C8 (witness): the comma string "GCC, 9.3.0", the 3-element form with
token "true", a 3-element form with the unknown token "maybe", and a dict
with the extra key bogus. -/
theorem C8_witness :
    to_toolchain_dict (.vstr "GCC, 9.3.0") =
      .ok (.vdict [(.vstr "name", .vstr "GCC"), (.vstr "version", .vstr "9.3.0")]) ∧
    to_toolchain_dict (.vlist [.vstr "GCC", .vstr "9.3.0", .vstr "true"]) =
      .ok (.vdict [(.vstr "name", .vstr "GCC"), (.vstr "version", .vstr "9.3.0"),
                   (.vstr "hidden", .vbool true)]) ∧
    to_toolchain_dict (.vlist [.vstr "GCC", .vstr "9.3.0", .vstr "maybe"]) =
      .error (.invalidTruthValue "maybe") ∧
    to_toolchain_dict (.vdict [(.vstr "name", .vstr "GCC"), (.vstr "version", .vstr "9.3.0"),
        (.vstr "bogus", .vint 1)]) = .error .toolchainDictKeys := by
  refine ⟨?_, ?_, ?_, ?_⟩
  · have h := C8_toolchain_normalizer.1 "GCC, 9.3.0" "GCC" " 9.3.0" (by decide)
    rw [show pyStrip "GCC" = "GCC" from by decide,
        show pyStrip " 9.3.0" = "9.3.0" from by decide] at h
    exact h
  · have h := (C8_toolchain_normalizer.2.2.1 "GCC" "9.3.0" "true").1 (by decide)
    rw [show pyStrip "GCC" = "GCC" from by decide,
        show pyStrip "9.3.0" = "9.3.0" from by decide] at h
    exact h
  · have h := (C8_toolchain_normalizer.2.2.1 "GCC" "9.3.0" "maybe").2.2 (by decide) (by decide)
    rw [show pyLower (pyStrip "maybe") = "maybe" from by decide] at h
    exact h
  · have h := (C8_toolchain_normalizer.2.2.2
        [(.vstr "name", .vstr "GCC"), (.vstr "version", .vstr "9.3.0"), (.vstr "bogus", .vint 1)]
        [.vstr "bogus", .vstr "name", .vstr "version"] (by decide)).2 (by decide) (by decide)
    exact h

/-- C9: a dependency dict that marks itself as an external module is
accepted iff its sorted key list is exactly external_module/name; on
acceptance the result maps full_mod_name and short_mod_name to the given
name and sets name and version to None, and otherwise the hard
unexpected-format error is raised. -/
theorem C9_external_module :
    ∀ (pairs : List (Value × Value)) (em : Value),
    lookupVal pairs (.vstr "external_module") = some em →
    pyTruthy em = true →
    ∀ ks : List Value, pySortedKeys pairs = .ok ks →
    (ks = [Value.vstr "external_module", Value.vstr "name"] →
      ∀ nm : Value, lookupVal pairs (.vstr "name") = some nm →
      to_dependency (.vdict pairs) =
        .ok (.vdict [(.vstr "external_module", .vbool true),
                     (.vstr "full_mod_name", nm),
                     (.vstr "name", .vnone),
                     (.vstr "short_mod_name", nm),
                     (.vstr "version", .vnone)])) ∧
    (ks ≠ [Value.vstr "external_module", Value.vstr "name"] →
      to_dependency (.vdict pairs) = .error .externalModuleFormat) := by
  intro pairs em hem htr ks hks
  constructor
  · intro hkeys nm hnm
    simp [to_dependency, hem, htr, hks, hkeys, hnm, bind_except_ok, pure_except]
  · intro hkeys
    simp [to_dependency, hem, htr, hks, hkeys, bind_except_ok, pure_except]

/-- C9 (witness): the fftw external-module example. -/
theorem C9_witness :
    to_dependency (.vdict [(.vstr "external_module", .vbool true),
                           (.vstr "name", .vstr "fftw/3.3.4")]) =
      .ok (.vdict [(.vstr "external_module", .vbool true),
                   (.vstr "full_mod_name", .vstr "fftw/3.3.4"),
                   (.vstr "name", .vnone),
                   (.vstr "short_mod_name", .vstr "fftw/3.3.4"),
                   (.vstr "version", .vnone)]) := by
  exact (C9_external_module
      [(.vstr "external_module", .vbool true), (.vstr "name", .vstr "fftw/3.3.4")]
      (.vbool true) (by decide) (by decide)
      [.vstr "external_module", .vstr "name"] (by decide)).1 rfl
      (.vstr "fftw/3.3.4") (by decide)
